import Mathlib

/-!
Shallow embedding of the `selenium-state-machine` core: the `StateMachine`
driver loop (`src/StateMachine.ts`), the `ValueDependency` staleness protocol
(`src/Dependency.ts`), the `Provide` transition builder (`src/Provide.ts`),
and the budget-based `Timer`.

Conventions of the embedding:
* machine integers (`Date.now()` deltas, budgets) are modelled as `Int`
  (budgets may go negative) and `Nat` (measured wall-clock deltas);
* JavaScript objects/`Map`s keyed by strings become association lists;
* JavaScript `Set` becomes a duplicate-free insertion list;
* code that `throw`s is modelled in `Except`;
* a state function's behaviour during one driver cycle is an input to the
  step function: its measured delta and its outcome (a completed `Provide`
  or a thrown error).
-/

namespace SSM

/-- Errors thrown by the state machine core.  `critical` is `CriticalError`,
`timeoutErr` is `TimeoutError`, `staleDependency` is
`StaleDependencyReferenceError` (which carries the stale dependency's
provider index and name); the remaining constructors model the
selenium-webdriver error classes the driver's catch block classifies. -/
inductive SmError where
  | critical (msg : String)
  | timeoutErr (msg : String)
  | staleDependency (providerIdx : Option Nat) (depName : Option String)
  | noSuchElement
  | elementClickIntercepted
  | staleElementReference
  | unknown
deriving Repr, DecidableEq

/-- Whether an error is a `StaleDependencyReferenceError` (the recoverable
kind the driver's handler pattern-matches first). -/
def SmError.isStaleDep : SmError → Bool
  | .staleDependency _ _ => true
  | _ => false

/-- `ValueDependency<T>` from `Dependency.ts`: optional value, optional name,
optional provider.  The driver only ever reads the provider's `index`, so the
provider reference is modelled as the provider state's index. -/
structure ValueDependency (V : Type) where
  value? : Option V
  name? : Option String
  provider? : Option Nat
deriving Repr, DecidableEq

/-- `ValueDependency.name` getter: throws `CriticalError` when unnamed. -/
def ValueDependency.name {V : Type} (d : ValueDependency V) : Except SmError String :=
  match d.name? with
  | none => .error (.critical "dependency is missing name")
  | some n => .ok n

/-- `ValueDependency.provider` getter: throws `CriticalError` when the
provider is unset ("provider of ... is undefined"). -/
def ValueDependency.provider {V : Type} (d : ValueDependency V) : Except SmError Nat :=
  match d.provider? with
  | none => .error (.critical "provider is undefined")
  | some p => .ok p

/-- `ValueDependency.set(value, provider)`: immutable update via `clone` —
a new dependency with the same name, the new value, and the new provider
(the clone is fresh, so its provider setter never throws). -/
def ValueDependency.set {V : Type} (d : ValueDependency V) (v : V) (provider : Nat) :
    ValueDependency V :=
  { value? := some v, name? := d.name?, provider? := some provider }

/-- `ValueDependency.invalidate()`: clears the value and throws
`StaleDependencyReferenceError` carrying this dependency. -/
def ValueDependency.invalidate {V : Type} (d : ValueDependency V) :
    ValueDependency V × SmError :=
  ({ d with value? := none }, .staleDependency d.provider? d.name?)

/-- `Timer`.  Modelled from the spec: `Timer.ts` is not among the provided
source files (only its construction in `StateMachine.createTimer` and the
`elapsed(currentBudget)` call sites are).  Per the spec, a Timer holds "a
fixed deadline value computed at creation as `max(0, currentBudget −
timeoutMs)`". -/
structure Timer where
  deadline : Int
deriving Repr, DecidableEq

/-- Modelled from the spec: `new Timer(currentBudget, timeoutMs)` computes the
deadline `max(0, currentBudget − timeoutMs)`. -/
def Timer.create (currentBudget timeoutMs : Int) : Timer :=
  ⟨max 0 (currentBudget - timeoutMs)⟩

/-- Modelled from the spec: "elapsed" is true once the current remaining
budget is ≤ the precomputed deadline. -/
def Timer.elapsed (t : Timer) (currentBudget : Int) : Bool :=
  currentBudget ≤ t.deadline

/-- Association-list lookup (JavaScript object / `Map.get`). -/
def lookupA {α : Type} : List (String × α) → String → Option α
  | [], _ => none
  | (k, v) :: rest, key => if k = key then some v else lookupA rest key

/-- Association-list write (JavaScript object / `Map.set`): overwrite the
existing binding in place, else append. -/
def setA {α : Type} : List (String × α) → String → α → List (String × α)
  | [], key, v => [(key, v)]
  | (k, w) :: rest, key, v =>
      if k = key then (key, v) :: rest else (k, w) :: setA rest key v

/-- Association-list delete (JavaScript `delete obj[key]`). -/
def removeA {α : Type} : List (String × α) → String → List (String × α)
  | [], _ => []
  | (k, w) :: rest, key => if k = key then removeA rest key else (k, w) :: removeA rest key

/-- JavaScript `Set.add`: insert only when absent (the reached-state set). -/
def addSet (s : List String) (n : String) : List String :=
  if n ∈ s then s else s ++ [n]

/-- A state's registration data (`State.ts`): resolved name and optional
timeout (`undefined` timeout means unbounded). -/
structure StateDef where
  name : String
  timeout? : Option Int
deriving Repr, DecidableEq

/-- `state.timeout <= this._timeOnState` with `timeout` defaulting to
`Number.POSITIVE_INFINITY` (never exceeded when no timeout is set). -/
def stateTimeoutExceeded (s : StateDef) (timeOnState : Int) : Bool :=
  match s.timeout? with
  | none => false
  | some t => t ≤ timeOnState

/-- Timer creation request recorded by a `Provide` (`TimerData`). -/
structure TimerData where
  name : String
  timeout : Int
deriving Repr, DecidableEq

/-- The `Provide` builder (`Provide.ts`): transition flags, dependency
updates staged for commit, timer create/clear requests, and the staged
context.  `newContext` starts from the context snapshot the builder was
constructed with and is replaced by `updateContext` merges; because the
staged context is a complete record, the driver's final shallow merge
installs it wholesale. -/
structure Provide (V : Type) (Ctx : Type) where
  repeatFlag : Bool
  nextFlag : Bool
  prevFlag : Bool
  nextStateName : String
  updateMap : List (String × ValueDependency V)
  createTimers : List TimerData
  clearTimers : List String
  newContext : Ctx
  providerIndex : Nat
deriving DecidableEq

/-- `State.execute` constructs a fresh `Provide` bound to the executing state
as potential provider: all flags false, empty name, empty maps. -/
def mkProvide {V Ctx : Type} (providerIndex : Nat) (ctx : Ctx) : Provide V Ctx :=
  { repeatFlag := false, nextFlag := false, prevFlag := false, nextStateName := ""
    updateMap := [], createTimers := [], clearTimers := []
    newContext := ctx, providerIndex := providerIndex }

/-- `Provide.has(id)`. -/
def Provide.has {V Ctx : Type} (p : Provide V Ctx) (id : String) : Bool :=
  (lookupA p.updateMap id).isSome

/-- `Provide.dependency(dependency, newValue)`: reading the id of an unnamed
dependency throws; writing an id already written this cycle throws
`CriticalError`; otherwise the updated (cloned) dependency is staged in the
update map under its id. -/
def Provide.dependency {V Ctx : Type} (p : Provide V Ctx) (dep : ValueDependency V)
    (newValue : V) : Except SmError (Provide V Ctx) :=
  match dep.name? with
  | none => .error (.critical "dependency is missing name")
  | some id =>
      if p.has id then
        .error (.critical "Cannot provide dependency with this id again.")
      else
        .ok { p with updateMap := setA p.updateMap id (dep.set newValue p.providerIndex) }

/-- `Provide.tryAgain()`. -/
def Provide.tryAgain {V Ctx : Type} (p : Provide V Ctx) : Provide V Ctx :=
  { p with repeatFlag := true }

/-- `Provide.next()`. -/
def Provide.next {V Ctx : Type} (p : Provide V Ctx) : Provide V Ctx :=
  { p with nextFlag := true }

/-- `Provide.previous()`. -/
def Provide.previous {V Ctx : Type} (p : Provide V Ctx) : Provide V Ctx :=
  { p with prevFlag := true }

/-- `Provide.transition(name)`. -/
def Provide.transition {V Ctx : Type} (p : Provide V Ctx) (name : String) : Provide V Ctx :=
  { p with nextStateName := name }

/-- `Provide.createTimer(name, timeout)`. -/
def Provide.createTimer {V Ctx : Type} (p : Provide V Ctx) (name : String)
    (timeout : Int) : Provide V Ctx :=
  { p with createTimers := p.createTimers ++ [⟨name, timeout⟩] }

/-- `Provide.clearTimer(name)`. -/
def Provide.clearTimer {V Ctx : Type} (p : Provide V Ctx) (name : String) : Provide V Ctx :=
  { p with clearTimers := p.clearTimers ++ [name] }

/-- `Provide.updateContext(data)`: shallow-merges a patch into the staged
context.  The patch application itself is supplied as a function since the
context record shape is user-defined. -/
def Provide.updateContext {V Ctx : Type} (p : Provide V Ctx) (merge : Ctx → Ctx) :
    Provide V Ctx :=
  { p with newContext := merge p.newContext }

/-- The mutable state of a `StateMachine` instance: user context, remaining
global budget (`_context.timeout`), the timer map, current index `_i`,
per-state iteration counter, the name→index map, the reached-state set, the
running flag, the registered states, elapsed time on the current state, and
the shared dependency map. -/
structure SM (V : Type) (Ctx : Type) where
  userContext : Ctx
  timeout : Int
  timers : List (String × Timer)
  i : Nat
  stateCounter : Nat
  nameMap : List (String × Nat)
  reachedStates : List String
  running : Bool
  states : List StateDef
  timeOnState : Int
  dependencies : List (String × ValueDependency V)
deriving DecidableEq

/-- Name of the state at a given index, `'end'` for the terminal
pseudo-index (`currentState` getter / `changeIndex`'s `newStateName`). -/
def stateNameAt {V Ctx : Type} (sm : SM V Ctx) (idx : Nat) : String :=
  if h : idx < sm.states.length then (sm.states.get ⟨idx, h⟩).name else "end"

/-- `currentState` getter. -/
def currentStateName {V Ctx : Type} (sm : SM V Ctx) : String :=
  stateNameAt sm sm.i

/-- `StateMachine.createTimer(name, timeout)`: stores a timer whose deadline
is computed against the machine's current remaining budget. -/
def SM.createTimer {V Ctx : Type} (sm : SM V Ctx) (name : String) (timeout : Int) :
    SM V Ctx :=
  { sm with timers := setA sm.timers name (Timer.create sm.timeout timeout) }

/-- `StateMachine.clearTimer(name)`. -/
def SM.clearTimer {V Ctx : Type} (sm : SM V Ctx) (name : String) : SM V Ctx :=
  { sm with timers := removeA sm.timers name }

/-- `StateMachine.hasTimer(name)`. -/
def SM.hasTimer {V Ctx : Type} (sm : SM V Ctx) (name : String) : Bool :=
  (lookupA sm.timers name).isSome

/-- `StateMachine.hasElapsedTimer(name)`: evaluates the timer against the
current remaining budget; throws `CriticalError` for an unknown timer. -/
def SM.hasElapsedTimer {V Ctx : Type} (sm : SM V Ctx) (name : String) :
    Except SmError Bool :=
  match lookupA sm.timers name with
  | some t => .ok (t.elapsed sm.timeout)
  | none => .error (.critical "unknown timer")

/-- `StateMachine.addState`: append and record name → index. -/
def SM.addState {V Ctx : Type} (sm : SM V Ctx) (s : StateDef) : SM V Ctx :=
  { sm with states := sm.states ++ [s]
            nameMap := setA sm.nameMap s.name sm.states.length }

/-- `StateMachine.changeIndex(i)`: no-op when the target equals the current
index; `CriticalError` when the target is negative; otherwise set the index,
zero the per-state counters, add the destination's name to the reached set,
and notify the transition listeners.  The returned `Option` is the machine
snapshot handed to the listeners (`notify()` passes `this` right after the
mutations), `none` when no notification fires. -/
def changeIndex {V Ctx : Type} (sm : SM V Ctx) (target : Int) :
    Except SmError (SM V Ctx × Option (SM V Ctx)) :=
  if (sm.i : Int) = target then .ok (sm, none)
  else if target < 0 then .error (.critical "cannot go to previous checkpoint")
  else
    let t := target.toNat
    let sm' := { sm with i := t, timeOnState := 0, stateCounter := 0
                         reachedStates := addSet sm.reachedStates (stateNameAt sm t) }
    .ok (sm', some sm')

/-- The successful half of one driver cycle, before the transition decision:
`timeOnState += delta`, `stateCounter += 1`, budget `-= delta`, commit the
staged dependency updates into the shared map, clear then create timers, and
install the staged context.  In the source these run sequentially on the
machine, but each step touches only its own field and `createTimer` reads
the already-decremented budget, so they are expressed as one record
update. -/
def applyProvide {V Ctx : Type} (sm : SM V Ctx) (delta : Nat) (p : Provide V Ctx) :
    SM V Ctx :=
  let newBudget := sm.timeout - delta
  let clearedTimers := p.clearTimers.foldl removeA sm.timers
  { sm with timeOnState := sm.timeOnState + delta
            stateCounter := sm.stateCounter + 1
            timeout := newBudget
            dependencies := p.updateMap.foldl (fun m kv => setA m kv.1 kv.2) sm.dependencies
            timers := p.createTimers.foldl
              (fun ts td => setA ts td.name (Timer.create newBudget td.timeout)) clearedTimers
            userContext := p.newContext }

/-- Result of one driver cycle: either the loop continues with the updated
machine (carrying the listener-notification snapshot when a transition
fired), or the cycle ends the loop by propagating a fatal error. -/
inductive StepResult (V : Type) (Ctx : Type) where
  | goOn (sm : SM V Ctx) (notif : Option (SM V Ctx))
  | fatal (e : SmError) (sm : SM V Ctx)
deriving DecidableEq

/-- Machine state carried by a step result. -/
def StepResult.sm {V Ctx : Type} : StepResult V Ctx → SM V Ctx
  | .goOn sm _ => sm
  | .fatal _ sm => sm

/-- The machine snapshot handed to transition listeners during the step,
`none` when no listener was invoked. -/
def StepResult.notif {V Ctx : Type} : StepResult V Ctx → Option (SM V Ctx)
  | .goOn _ n => n
  | .fatal _ _ => none

/-- A `changeIndex` call made inside the `try` block: a thrown
`CriticalError` lands in the same catch block, where it is classified
fatal and rethrown before the catch's budget decrement. -/
def jumpTo {V Ctx : Type} (sm : SM V Ctx) (target : Int) : StepResult V Ctx :=
  match changeIndex sm target with
  | .ok (sm', notif) => .goOn sm' notif
  | .error e => .fatal e sm

/-- The transition decision of a committed `Provide`, in the driver's check
order: `doesRepeat`, then `doesGoNext`, then `doesGoPrevious`, then
`doesTransition` (name registered in the name map, else `CriticalError`);
no decision at all is `CriticalError`. -/
def commitDecision {V Ctx : Type} (sm : SM V Ctx) (p : Provide V Ctx) :
    StepResult V Ctx :=
  if p.repeatFlag then .goOn sm none
  else if p.nextFlag then jumpTo sm ((sm.i : Int) + 1)
  else if p.prevFlag then jumpTo sm ((sm.i : Int) - 1)
  else if p.nextStateName ≠ "" then
    match lookupA sm.nameMap p.nextStateName with
    | none => .fatal (.critical "state does not exist") sm
    | some idx => jumpTo sm (idx : Int)
  else .fatal (.critical "unknown state transition") sm

/-- The driver's catch block.  For a `StaleDependencyReferenceError` the
handler first logs a line interpolating `e.dependency.name` — for an
unnamed dependency the `name` getter throws `CriticalError` right there,
before any jump; it then evaluates `e.dependency.provider !== undefined`,
which invokes the throwing `provider` getter, so a provider-less dependency
raises the getter's `CriticalError` out of the loop (the else branch's
explicit rethrow of the stale error is unreachable); with a named
dependency and a provider, the driver jumps to the provider's index and
then decrements the budget by the measured delta.  `NoSuchElementError`,
`ElementClickInterceptedError` and a bare `StaleElementReferenceError` are
benign — only the budget decrement happens; anything else is rethrown
(before the budget decrement is reached). -/
def handleFailure {V Ctx : Type} (sm : SM V Ctx) (delta : Nat) (e : SmError) :
    StepResult V Ctx :=
  match e with
  | .staleDependency providerIdx depName =>
      match depName with
      | none => .fatal (.critical "dependency is missing name") sm
      | some _ =>
          match providerIdx with
          | some idx =>
              match changeIndex sm (idx : Int) with
              | .ok (sm', notif) => .goOn { sm' with timeout := sm'.timeout - delta } notif
              | .error e' => .fatal e' sm
          | none => .fatal (.critical "provider is undefined") sm
  | .noSuchElement => .goOn { sm with timeout := sm.timeout - delta } none
  | .elementClickIntercepted => .goOn { sm with timeout := sm.timeout - delta } none
  | .staleElementReference => .goOn { sm with timeout := sm.timeout - delta } none
  | e => .fatal e sm

/-- One full driver cycle (the `try`/`catch` body of `helperStart`'s loop),
given the state function's measured wall-clock delta and its outcome. -/
def runCycle {V Ctx : Type} (sm : SM V Ctx) (delta : Nat)
    (res : Except SmError (Provide V Ctx)) : StepResult V Ctx :=
  match res with
  | .ok p => commitDecision (applyProvide sm delta p) p
  | .error e => handleFailure sm delta e

/-- How a `helperStart` run ends: terminal state reached (resolves),
cooperative stop (resolves), global-budget timeout (`TimeoutError`), a
state's own timeout (`TimeoutError` thrown in-loop), a fatal error from a
cycle, or the scripted cycle outcomes ran out before the loop ended. -/
inductive LoopResult (V : Type) (Ctx : Type) where
  | completed (sm : SM V Ctx)
  | stopped (sm : SM V Ctx)
  | timedOut (sm : SM V Ctx)
  | stateTimedOut (sm : SM V Ctx)
  | fatal (e : SmError) (sm : SM V Ctx)
  | outOfScript (sm : SM V Ctx)
deriving DecidableEq

/-- Machine state carried by a loop result. -/
def LoopResult.sm {V Ctx : Type} : LoopResult V Ctx → SM V Ctx
  | .completed sm => sm
  | .stopped sm => sm
  | .timedOut sm => sm
  | .stateTimedOut sm => sm
  | .fatal _ sm => sm
  | .outOfScript sm => sm

/-- The code after `helperStart`'s `while` loop: a cooperative stop with
budget remaining resolves; otherwise, not having reached the terminal index
raises `TimeoutError`; reaching it resolves. -/
def afterLoop {V Ctx : Type} (sm : SM V Ctx) : LoopResult V Ctx :=
  if sm.running = false ∧ 0 < sm.timeout then .stopped sm
  else if sm.i ≠ sm.states.length then .timedOut sm
  else .completed sm

/-- `helperStart`'s `while (running && timeout > 0)` loop, with each
iteration's state-function behaviour scripted as a (delta, outcome) pair.
Loop-top order as in the source: loop condition, terminal-index check,
per-state timeout check, then the cycle. -/
def runLoop {V Ctx : Type} :
    SM V Ctx → List (Nat × Except SmError (Provide V Ctx)) → LoopResult V Ctx
  | sm, script =>
    if sm.running && decide (0 < sm.timeout) then
      if sm.states.length ≤ sm.i then .completed sm
      else if stateTimeoutExceeded (sm.states.getD sm.i ⟨"", none⟩) sm.timeOnState then
        .stateTimedOut sm
      else
        match script with
        | [] => .outOfScript sm
        | (delta, res) :: rest =>
            match runCycle sm delta res with
            | .goOn sm' _ => runLoop sm' rest
            | .fatal e sm' => .fatal e sm'
    else afterLoop sm
termination_by _ script => script.length
decreasing_by simp_all

/-- Observable events during the synchronous segment of `start()`:
`stateFnStarts idx` — the state function of state `idx` begins executing
(synchronously, inside `await state.execute(...)` of the first loop
iteration of `helperStart()`, which `start()` invokes first);
`reachedAdd name` — `start()` adds the current state's name to the
reached-state set after that invocation returns control. -/
inductive StartEvent where
  | stateFnStarts (idx : Nat)
  | reachedAdd (name : String)
deriving Repr, DecidableEq

/-- The events of `helperStart()`'s synchronous prefix: when the machine is
not already running, the budget is positive, the index is non-terminal and
the current state's timeout is not yet exceeded, the current state's
function starts executing before the first suspension point. -/
def helperStartSyncEvents {V Ctx : Type} (sm : SM V Ctx) : List StartEvent :=
  if sm.running then []
  else if decide (0 < sm.timeout) = false then []
  else if sm.states.length ≤ sm.i then []
  else if stateTimeoutExceeded (sm.states.getD sm.i ⟨"", none⟩) sm.timeOnState then []
  else [.stateFnStarts sm.i]

/-- The ordered observable events of `start()`'s synchronous segment:
`this._promise = this.helperStart()` runs `helperStart` up to its first
suspension point, and only then does `start()` add the current state's name
to the reached set.  (`helperStart` is `async`, so even its synchronous
throws surface as promise rejections and never skip the addition.) -/
def startSyncTrace {V Ctx : Type} (sm : SM V Ctx) : List StartEvent :=
  helperStartSyncEvents sm ++ [.reachedAdd (currentStateName sm)]

/-- The machine state when `start()` returns: the running flag was set by
`helperStart` (unless it threw for already running, leaving it `true`
anyway) and the current state's name was added to the reached set. -/
def startSync {V Ctx : Type} (sm : SM V Ctx) : SM V Ctx :=
  { sm with running := true
            reachedStates := addSet sm.reachedStates (currentStateName sm) }

/-- `waitUntilReached(name, timeout)`'s poll loop, over the finite stream of
(reached-set, `Date.now()`) snapshots the successive polls observe, with
`endT = Date.now() + timeout` precomputed.  The loop body only awaits
`setImmediate`; the function body contains no `throw`, so the result is
typed in the driver's error monad to record that no error path exists.
Returns the number of polls consumed before exiting. -/
def waitUntilReached (name : String) (endT : Int) :
    List (List String × Int) → Except SmError Nat
  | [] => .ok 0
  | (reached, now) :: rest =>
      if name ∉ reached ∧ now < endT then
        (waitUntilReached name endT rest).map (· + 1)
      else .ok 0

/-! Basic lemmas about the embedded operations. -/

theorem lookupA_setA_self {α : Type} (m : List (String × α)) (k : String) (v : α) :
    lookupA (setA m k v) k = some v := by
  induction m with
  | nil => simp [setA, lookupA]
  | cons hd tl ih =>
      obtain ⟨k', v'⟩ := hd
      by_cases h : k' = k
      · simp [setA, h, lookupA]
      · simp [setA, h, lookupA, ih]

theorem addSet_of_mem {s : List String} {n : String} (h : n ∈ s) : addSet s n = s := by
  simp [addSet, h]

theorem mem_addSet (s : List String) (n : String) : n ∈ addSet s n := by
  by_cases h : n ∈ s <;> simp [addSet, h]

theorem subset_addSet (s : List String) (n : String) : s ⊆ addSet s n := by
  by_cases h : n ∈ s
  · simp [addSet, h]
  · simp only [addSet, h, if_false]
    exact List.subset_append_left _ _

theorem changeIndex_frame {V Ctx : Type} {sm sm' : SM V Ctx} {target : Int}
    {notif : Option (SM V Ctx)}
    (h : changeIndex sm target = .ok (sm', notif)) :
    sm'.userContext = sm.userContext ∧ sm'.timeout = sm.timeout ∧
    sm'.timers = sm.timers ∧ sm'.dependencies = sm.dependencies ∧
    sm'.running = sm.running ∧ sm'.states = sm.states ∧ sm'.nameMap = sm.nameMap ∧
    sm.reachedStates ⊆ sm'.reachedStates := by
  unfold changeIndex at h
  split at h
  · rw [Except.ok.injEq, Prod.mk.injEq] at h
    obtain ⟨h1, -⟩ := h
    subst h1
    exact ⟨rfl, rfl, rfl, rfl, rfl, rfl, rfl, fun _ hx => hx⟩
  · split at h
    · exact absurd h (by simp)
    · rw [Except.ok.injEq, Prod.mk.injEq] at h
      obtain ⟨h1, -⟩ := h
      subst h1
      refine ⟨rfl, rfl, rfl, rfl, rfl, rfl, rfl, ?_⟩
      exact subset_addSet _ _

theorem changeIndex_self {V Ctx : Type} (sm : SM V Ctx) :
    changeIndex sm (sm.i : Int) = .ok (sm, none) := by
  unfold changeIndex
  rw [if_pos rfl]

/-- The machine after an actual (non-self) transition to index `t`. -/
def transitioned {V Ctx : Type} (sm : SM V Ctx) (t : Nat) : SM V Ctx :=
  { sm with i := t, timeOnState := 0, stateCounter := 0
            reachedStates := addSet sm.reachedStates (stateNameAt sm t) }

theorem changeIndex_move {V Ctx : Type} (sm : SM V Ctx) (t : Nat) (hne : t ≠ sm.i) :
    changeIndex sm (t : Int) = .ok (transitioned sm t, some (transitioned sm t)) := by
  have h0 : ¬ ((sm.i : Int) = (t : Int)) := by
    intro h
    exact hne (by exact_mod_cast h.symm)
  have h1 : ¬ ((t : Int) < 0) := not_lt.mpr (Int.natCast_nonneg t)
  unfold changeIndex
  rw [if_neg h0, if_neg h1]
  simp only [Int.toNat_natCast, transitioned]

theorem jumpTo_move {V Ctx : Type} (sm : SM V Ctx) (t : Nat) (hne : t ≠ sm.i) :
    jumpTo sm (t : Int) = .goOn (transitioned sm t) (some (transitioned sm t)) := by
  unfold jumpTo
  rw [changeIndex_move sm t hne]

theorem jumpTo_self {V Ctx : Type} (sm : SM V Ctx) :
    jumpTo sm (sm.i : Int) = .goOn sm none := by
  unfold jumpTo
  rw [changeIndex_self]

theorem jumpTo_timeout {V Ctx : Type} (sm : SM V Ctx) (target : Int) :
    (jumpTo sm target).sm.timeout = sm.timeout := by
  unfold jumpTo
  rcases hx : changeIndex sm target with e | ⟨sm', notif⟩
  · rfl
  · exact (changeIndex_frame hx).2.1

theorem commitDecision_timeout {V Ctx : Type} (sm : SM V Ctx) (p : Provide V Ctx) :
    (commitDecision sm p).sm.timeout = sm.timeout := by
  unfold commitDecision
  split
  · rfl
  · split
    · exact jumpTo_timeout _ _
    · split
      · exact jumpTo_timeout _ _
      · split
        · split
          · rfl
          · exact jumpTo_timeout _ _
        · rfl

theorem runCycle_timeout {V Ctx : Type} (sm : SM V Ctx) (delta : Nat)
    (res : Except SmError (Provide V Ctx)) :
    (runCycle sm delta res).sm.timeout = sm.timeout - delta ∨
    ((runCycle sm delta res).sm.timeout = sm.timeout ∧
      ∃ e, runCycle sm delta res = .fatal e sm) := by
  cases res with
  | ok p =>
      left
      simp only [runCycle]
      rw [commitDecision_timeout]
      rfl
  | error e =>
      cases e with
      | critical msg => exact Or.inr ⟨rfl, _, rfl⟩
      | timeoutErr msg => exact Or.inr ⟨rfl, _, rfl⟩
      | staleDependency providerIdx depName =>
          cases depName with
          | none => exact Or.inr ⟨rfl, _, rfl⟩
          | some nm =>
              cases providerIdx with
              | none => exact Or.inr ⟨rfl, _, rfl⟩
              | some idx =>
                  simp only [runCycle, handleFailure]
                  rcases hx : changeIndex sm (idx : Int) with e' | ⟨sm', notif⟩
                  · simp only [hx]
                    exact Or.inr ⟨rfl, _, rfl⟩
                  · simp only [hx]
                    left
                    show sm'.timeout - delta = sm.timeout - delta
                    rw [(changeIndex_frame hx).2.1]
      | noSuchElement => exact Or.inl rfl
      | elementClickIntercepted => exact Or.inl rfl
      | staleElementReference => exact Or.inl rfl
      | unknown => exact Or.inr ⟨rfl, _, rfl⟩

theorem runCycle_timeout_le {V Ctx : Type} (sm : SM V Ctx) (delta : Nat)
    (res : Except SmError (Provide V Ctx)) :
    (runCycle sm delta res).sm.timeout ≤ sm.timeout := by
  rcases runCycle_timeout sm delta res with h | ⟨h, _⟩
  · rw [h]; omega
  · rw [h]

theorem afterLoop_sm {V Ctx : Type} (sm : SM V Ctx) : (afterLoop sm).sm = sm := by
  unfold afterLoop
  split
  · rfl
  · split <;> rfl

theorem runLoop_timeout_mono {V Ctx : Type} :
    ∀ (script : List (Nat × Except SmError (Provide V Ctx))) (sm : SM V Ctx),
      (runLoop sm script).sm.timeout ≤ sm.timeout := by
  intro script
  induction script with
  | nil =>
      intro sm
      rw [runLoop]
      split
      · split
        · exact le_refl _
        · split
          · exact le_refl _
          · exact le_refl _
      · rw [afterLoop_sm]
  | cons hd tl ih =>
      intro sm
      obtain ⟨delta, res⟩ := hd
      rw [runLoop]
      split
      · split
        · exact le_refl _
        · split
          · exact le_refl _
          · rcases hx : runCycle sm delta res with ⟨sm', notif⟩ | ⟨e, sm'⟩
            · simp only [hx]
              calc (runLoop sm' tl).sm.timeout ≤ sm'.timeout := ih sm'
                _ ≤ sm.timeout := by
                    have := runCycle_timeout_le sm delta res
                    rw [hx] at this
                    exact this
            · simp only [hx]
              have := runCycle_timeout_le sm delta res
              rw [hx] at this
              exact this
      · rw [afterLoop_sm]

theorem changeIndex_neg {V Ctx : Type} (sm : SM V Ctx) {target : Int} (h : target < 0) :
    changeIndex sm target = .error (.critical "cannot go to previous checkpoint") := by
  have h0 : ¬ ((sm.i : Int) = target) := by
    have := Int.natCast_nonneg sm.i
    omega
  unfold changeIndex
  rw [if_neg h0, if_pos h]

theorem runLoop_cons_fatal {V Ctx : Type} {sm sm' : SM V Ctx} {delta : Nat}
    {res : Except SmError (Provide V Ctx)} {e : SmError}
    (hr : sm.running = true) (ht : 0 < sm.timeout) (hl : sm.i < sm.states.length)
    (hst : stateTimeoutExceeded (sm.states.getD sm.i ⟨"", none⟩) sm.timeOnState = false)
    (hc : runCycle sm delta res = .fatal e sm')
    (rest : List (Nat × Except SmError (Provide V Ctx))) :
    runLoop sm ((delta, res) :: rest) = .fatal e sm' := by
  rw [runLoop]
  rw [if_pos (by rw [hr]; simpa using ht)]
  rw [if_neg (not_le.mpr hl)]
  rw [if_neg (by rw [hst]; exact Bool.false_ne_true)]
  simp only [hc]

/-! Claim theorems. -/

/-- Machine exhibiting the C1 counterexample: executing state index 1. -/
def c1sm : SM Nat Nat :=
  { userContext := 0, timeout := 100, timers := [], i := 1, stateCounter := 2
    nameMap := [("A", 0), ("B", 1)], reachedStates := ["A", "B"]
    running := true, states := [⟨"A", none⟩, ⟨"B", none⟩]
    timeOnState := 5, dependencies := [] }

/-- Claim C1 counterexample: a stale failure whose dependency has no
provider ends the loop with the `CriticalError` thrown by the `provider`
getter during the handler's `!== undefined` test — NOT with the
`StaleDependencyReferenceError` itself, whose explicit rethrow is
unreachable; and a stale failure carrying an unnamed dependency with a
provider (state index 0, earlier than the current index 1) does NOT jump —
the handler's logging reads the `name` getter, which throws
`CriticalError` first, and the index stays 1.  Both falsify the claim as
stated at these concrete inputs. -/
theorem stale_providerless_or_unnamed_is_critical :
    runCycle c1sm 2 (.error (.staleDependency none (some "d"))) =
      .fatal (.critical "provider is undefined") c1sm ∧
    runCycle c1sm 2 (.error (.staleDependency none (some "d"))) ≠
      .fatal (.staleDependency none (some "d")) c1sm ∧
    runCycle c1sm 2 (.error (.staleDependency (some 0) none)) =
      .fatal (.critical "dependency is missing name") c1sm ∧
    (runCycle c1sm 2 (.error (.staleDependency (some 0) none))).sm.i = 1 := by decide

/-- Claim C1 (amended): for a NAMED dependency whose provider is the state
at index `pidx`, a `StaleDependencyReferenceError` carrying it, thrown
while the driver is executing any later state (`pidx < sm.i`), makes the
very next executed state the provider: the cycle continues with the
current index set to `pidx` (a jump, not `current + 1`) and the
elapsed-on-state time and the iteration counter reset to zero.  A named
dependency with no provider is still fatal and the loop still stops, but
what propagates is the `CriticalError` raised by the `provider` getter
during the handler's `!== undefined` test (the explicit rethrow of the
stale error is dead code); an unnamed dependency is fatal already at the
handler's logging, whose `name` getter throws `CriticalError` before any
jump. -/
theorem stale_jump_to_provider {V Ctx : Type} (sm : SM V Ctx) (delta : Nat)
    (pidx : Nat) (n : String) (h : pidx < sm.i) :
    (∃ sm', runCycle sm delta (.error (.staleDependency (some pidx) (some n))) =
        .goOn sm' (some (transitioned sm pidx)) ∧
      sm'.i = pidx ∧ sm'.timeOnState = 0 ∧ sm'.stateCounter = 0 ∧
      sm'.timeout = sm.timeout - delta) ∧
    (∀ (n2 : String) (rest : List (Nat × Except SmError (Provide V Ctx))),
       sm.running = true → 0 < sm.timeout → sm.i < sm.states.length →
       stateTimeoutExceeded (sm.states.getD sm.i ⟨"", none⟩) sm.timeOnState = false →
       runLoop sm ((delta, .error (.staleDependency none (some n2))) :: rest) =
         .fatal (.critical "provider is undefined") sm) ∧
    (∀ (pidx2 : Option Nat) (rest : List (Nat × Except SmError (Provide V Ctx))),
       sm.running = true → 0 < sm.timeout → sm.i < sm.states.length →
       stateTimeoutExceeded (sm.states.getD sm.i ⟨"", none⟩) sm.timeOnState = false →
       runLoop sm ((delta, .error (.staleDependency pidx2 none)) :: rest) =
         .fatal (.critical "dependency is missing name") sm) := by
  refine ⟨?_, ?_, ?_⟩
  · simp only [runCycle, handleFailure]
    rw [changeIndex_move sm pidx (Nat.ne_of_lt h)]
    exact ⟨_, rfl, rfl, rfl, rfl, rfl⟩
  · intro n2 rest hr ht hl hst
    have hc : runCycle sm delta (.error (.staleDependency none (some n2))) =
        .fatal (.critical "provider is undefined") sm := rfl
    exact runLoop_cons_fatal hr ht hl hst hc rest
  · intro pidx2 rest hr ht hl hst
    have hc : runCycle sm delta (.error (.staleDependency pidx2 none)) =
        .fatal (.critical "dependency is missing name") sm := rfl
    exact runLoop_cons_fatal hr ht hl hst hc rest

/-- Machine used to instantiate `stale_jump_to_provider`: executing state
index 2, dependency provided by state index 0. -/
def w1sm : SM Nat Nat :=
  { userContext := 0, timeout := 100, timers := [], i := 2, stateCounter := 5
    nameMap := [("A", 0), ("B", 1), ("C", 2)], reachedStates := ["A", "B", "C"]
    running := true, states := [⟨"A", none⟩, ⟨"B", none⟩, ⟨"C", none⟩]
    timeOnState := 9, dependencies := [] }

/-- Witness for the amended claim C1 at a concrete machine. -/
theorem stale_jump_to_provider_witness :
    0 < w1sm.i ∧
    (∃ sm', runCycle w1sm 3 (.error (.staleDependency (some 0) (some "x"))) =
        .goOn sm' (some (transitioned w1sm 0)) ∧
      sm'.i = 0 ∧ sm'.timeOnState = 0 ∧ sm'.stateCounter = 0 ∧
      sm'.timeout = w1sm.timeout - 3) :=
  ⟨by decide, (stale_jump_to_provider w1sm 3 0 "x" (by decide)).1⟩

/-- Claim C5: a committed `Provide` whose decision is repeat (`tryAgain`)
leaves the current index and the reached-state set unchanged by the
transition step and fires no transition listener; only the iteration
counter is incremented, while elapsed-on-state grows by the cycle's
measured delta. -/
theorem repeat_keeps_state {V Ctx : Type} (sm : SM V Ctx) (delta : Nat)
    (p : Provide V Ctx) (h : p.repeatFlag = true) :
    runCycle sm delta (.ok p) = .goOn (applyProvide sm delta p) none ∧
    (applyProvide sm delta p).i = sm.i ∧
    (applyProvide sm delta p).reachedStates = sm.reachedStates ∧
    (applyProvide sm delta p).stateCounter = sm.stateCounter + 1 ∧
    (applyProvide sm delta p).timeOnState = sm.timeOnState + delta := by
  refine ⟨?_, rfl, rfl, rfl, rfl⟩
  simp only [runCycle, commitDecision, h, if_true]

/-- Machine used to instantiate `repeat_keeps_state`. -/
def w5sm : SM Nat Nat :=
  { userContext := 0, timeout := 50, timers := [], i := 1, stateCounter := 2
    nameMap := [("A", 0), ("B", 1)], reachedStates := ["A", "B"]
    running := true, states := [⟨"A", none⟩, ⟨"B", none⟩]
    timeOnState := 4, dependencies := [] }

/-- A `Provide` whose decision is `tryAgain`. -/
def w5p : Provide Nat Nat :=
  { repeatFlag := true, nextFlag := false, prevFlag := false, nextStateName := ""
    updateMap := [], createTimers := [], clearTimers := [], newContext := 7
    providerIndex := 1 }

/-- Witness for claim C5 at a concrete machine. -/
theorem repeat_keeps_state_witness :
    runCycle w5sm 2 (.ok w5p) = .goOn (applyProvide w5sm 2 w5p) none :=
  (repeat_keeps_state w5sm 2 w5p rfl).1

/-- Claim C6: a committed `Provide` whose decision is `previous()` while the
current index is 0 (negative target), or `transition(name)` with a name not
registered in the name map, makes the driver throw a fatal `CriticalError`,
and the loop stops by propagating it. -/
theorem invalid_target_fatal {V Ctx : Type} (sm : SM V Ctx) (delta : Nat) :
    (∀ p : Provide V Ctx, p.repeatFlag = false → p.nextFlag = false →
       p.prevFlag = true → sm.i = 0 →
       runCycle sm delta (.ok p) =
         .fatal (.critical "cannot go to previous checkpoint") (applyProvide sm delta p)) ∧
    (∀ q : Provide V Ctx, q.repeatFlag = false → q.nextFlag = false →
       q.prevFlag = false → q.nextStateName ≠ "" →
       lookupA sm.nameMap q.nextStateName = none →
       runCycle sm delta (.ok q) =
         .fatal (.critical "state does not exist") (applyProvide sm delta q)) ∧
    (∀ (sm' : SM V Ctx) (e : SmError) (res : Except SmError (Provide V Ctx))
       (rest : List (Nat × Except SmError (Provide V Ctx))),
       sm.running = true → 0 < sm.timeout → sm.i < sm.states.length →
       stateTimeoutExceeded (sm.states.getD sm.i ⟨"", none⟩) sm.timeOnState = false →
       runCycle sm delta res = .fatal e sm' →
       runLoop sm ((delta, res) :: rest) = .fatal e sm') := by
  refine ⟨?_, ?_, ?_⟩
  · intro p h1 h2 h3 h4
    simp only [runCycle, commitDecision]
    rw [if_neg (by rw [h1]; exact Bool.false_ne_true)]
    rw [if_neg (by rw [h2]; exact Bool.false_ne_true)]
    rw [if_pos h3]
    unfold jumpTo
    rw [show ((applyProvide sm delta p).i : Int) - 1 = -1 by
          show ((sm.i : Int)) - 1 = -1
          rw [h4]
          rfl]
    rw [changeIndex_neg _ (by decide)]
  · intro q h1 h2 h3 h4 h5
    simp only [runCycle, commitDecision]
    rw [if_neg (by rw [h1]; exact Bool.false_ne_true)]
    rw [if_neg (by rw [h2]; exact Bool.false_ne_true)]
    rw [if_neg (by rw [h3]; exact Bool.false_ne_true)]
    rw [if_pos h4]
    rw [show lookupA (applyProvide sm delta q).nameMap q.nextStateName = none from h5]
  · intro sm' e res rest hr ht hl hst hc
    exact runLoop_cons_fatal hr ht hl hst hc rest

/-- Machine used to instantiate `invalid_target_fatal`: index 0. -/
def w6sm : SM Nat Nat :=
  { userContext := 0, timeout := 60, timers := [], i := 0, stateCounter := 0
    nameMap := [("A", 0), ("B", 1)], reachedStates := ["A"]
    running := true, states := [⟨"A", none⟩, ⟨"B", none⟩]
    timeOnState := 0, dependencies := [] }

/-- A `Provide` whose decision is `previous()`. -/
def w6p : Provide Nat Nat :=
  { repeatFlag := false, nextFlag := false, prevFlag := true, nextStateName := ""
    updateMap := [], createTimers := [], clearTimers := [], newContext := 0
    providerIndex := 0 }

/-- Witness for claim C6 at a concrete machine. -/
theorem invalid_target_fatal_witness :
    runCycle w6sm 1 (.ok w6p) =
      .fatal (.critical "cannot go to previous checkpoint") (applyProvide w6sm 1 w6p) :=
  (invalid_target_fatal w6sm 1).1 w6p rfl rfl rfl rfl

/-- Claim C9: commit atomicity on failure — when the state function throws
(any error kind), none of that cycle's `Provide` effects are applied: the
shared dependency map, the timer map, and the user context are exactly as
before the cycle, and the reached-state set is unchanged (for a
stale-recovery jump this uses the run invariant that the provider state's
name is already in the reached set); the budget either drops by the
measured delta or is untouched (fatal rethrow); for every non-stale error
the state index and the per-state counters are unchanged as well. -/
theorem failed_cycle_commit_atomicity {V Ctx : Type} (sm : SM V Ctx) (delta : Nat)
    (e : SmError)
    (hreach : ∀ pidx dn, e = .staleDependency (some pidx) dn →
       stateNameAt sm pidx ∈ sm.reachedStates) :
    (runCycle sm delta (.error e)).sm.dependencies = sm.dependencies ∧
    (runCycle sm delta (.error e)).sm.timers = sm.timers ∧
    (runCycle sm delta (.error e)).sm.userContext = sm.userContext ∧
    (runCycle sm delta (.error e)).sm.reachedStates = sm.reachedStates ∧
    ((runCycle sm delta (.error e)).sm.timeout = sm.timeout - delta ∨
      (runCycle sm delta (.error e)).sm.timeout = sm.timeout) ∧
    (e.isStaleDep = false →
      (runCycle sm delta (.error e)).sm.i = sm.i ∧
      (runCycle sm delta (.error e)).sm.stateCounter = sm.stateCounter ∧
      (runCycle sm delta (.error e)).sm.timeOnState = sm.timeOnState) := by
  cases e with
  | critical msg => exact ⟨rfl, rfl, rfl, rfl, Or.inr rfl, fun _ => ⟨rfl, rfl, rfl⟩⟩
  | timeoutErr msg => exact ⟨rfl, rfl, rfl, rfl, Or.inr rfl, fun _ => ⟨rfl, rfl, rfl⟩⟩
  | noSuchElement => exact ⟨rfl, rfl, rfl, rfl, Or.inl rfl, fun _ => ⟨rfl, rfl, rfl⟩⟩
  | elementClickIntercepted => exact ⟨rfl, rfl, rfl, rfl, Or.inl rfl, fun _ => ⟨rfl, rfl, rfl⟩⟩
  | staleElementReference => exact ⟨rfl, rfl, rfl, rfl, Or.inl rfl, fun _ => ⟨rfl, rfl, rfl⟩⟩
  | unknown => exact ⟨rfl, rfl, rfl, rfl, Or.inr rfl, fun _ => ⟨rfl, rfl, rfl⟩⟩
  | staleDependency providerIdx dn =>
      cases dn with
      | none => exact ⟨rfl, rfl, rfl, rfl, Or.inr rfl, fun h => nomatch h⟩
      | some nm =>
          cases providerIdx with
          | none => exact ⟨rfl, rfl, rfl, rfl, Or.inr rfl, fun h => nomatch h⟩
          | some pidx =>
              have hmem := hreach pidx (some nm) rfl
              simp only [runCycle, handleFailure]
              by_cases hc : sm.i = pidx
              · rw [← hc, changeIndex_self]
                exact ⟨rfl, rfl, rfl, rfl, Or.inl rfl, fun h => nomatch h⟩
              · rw [changeIndex_move sm pidx (fun hx => hc hx.symm)]
                refine ⟨rfl, rfl, rfl, ?_, Or.inl rfl, fun h => nomatch h⟩
                show addSet sm.reachedStates (stateNameAt sm pidx) = sm.reachedStates
                exact addSet_of_mem hmem

/-- Machine used to instantiate `failed_cycle_commit_atomicity`: the stale
dependency's provider (state "A", index 0) is already in the reached set. -/
def w9sm : SM Nat Nat :=
  { userContext := 3, timeout := 80, timers := [("t", ⟨10⟩)], i := 1, stateCounter := 2
    nameMap := [("A", 0), ("B", 1)], reachedStates := ["A", "B"]
    running := true, states := [⟨"A", none⟩, ⟨"B", none⟩]
    timeOnState := 6, dependencies := [("d", ⟨some 1, some "d", some 0⟩)] }

/-- Witness for claim C9 at a concrete machine. -/
theorem failed_cycle_commit_atomicity_witness :
    (runCycle w9sm 4 (.error (.staleDependency (some 0) (some "d")))).sm.dependencies =
        w9sm.dependencies ∧
    (runCycle w9sm 4 (.error (.staleDependency (some 0) (some "d")))).sm.timers =
        w9sm.timers ∧
    (runCycle w9sm 4 (.error (.staleDependency (some 0) (some "d")))).sm.userContext =
        w9sm.userContext ∧
    (runCycle w9sm 4 (.error (.staleDependency (some 0) (some "d")))).sm.reachedStates =
        w9sm.reachedStates := by
  have H := failed_cycle_commit_atomicity w9sm 4 (.staleDependency (some 0) (some "d"))
    (by intro pidx dn h; cases h; decide)
  exact ⟨H.1, H.2.1, H.2.2.1, H.2.2.2.1⟩

/-- Machine exhibiting the C2 counterexample: one registered state, budget
100, a fatal (unclassified) state-function error. -/
def c2sm : SM Nat Nat :=
  { userContext := 0, timeout := 100, timers := [], i := 0, stateCounter := 0
    nameMap := [("A", 0)], reachedStates := ["A"]
    running := true, states := [⟨"A", none⟩]
    timeOnState := 0, dependencies := [] }

/-- Claim C2 counterexample: an attempted cycle that fails with an
unclassified (fatal) error does NOT have its measured delta (here 5)
subtracted from the budget — the rethrow happens before the catch block's
budget decrement, so the budget stays 100 instead of 95.  This falsifies
"the global remaining time budget is decremented by the measured wall-clock
delta of that attempt" for fatal attempts. -/
theorem fatal_cycle_budget_unchanged :
    runCycle c2sm 5 (.error .unknown) = .fatal .unknown c2sm ∧
    (runCycle c2sm 5 (.error .unknown)).sm.timeout ≠ c2sm.timeout - 5 := by
  exact ⟨rfl, by decide⟩

/-- Claim C2, amended: the budget is decremented by the measured delta of
every attempted cycle except one that ends the loop by propagating an error
thrown by the state function itself (stale-no-provider, or an unclassified
error) — on such a cycle the machine is returned untouched; consequently
the budget is monotonically non-increasing across any run; and once the
budget is ≤ 0 before the terminal index has been reached, the loop ends by
raising a `TimeoutError`. -/
theorem budget_monotone_and_timeout (V Ctx : Type) :
    (∀ (sm : SM V Ctx) (delta : Nat) (res : Except SmError (Provide V Ctx)),
       (runCycle sm delta res).sm.timeout = sm.timeout - delta ∨
       ((runCycle sm delta res).sm.timeout = sm.timeout ∧
         ∃ e, runCycle sm delta res = .fatal e sm)) ∧
    (∀ (script : List (Nat × Except SmError (Provide V Ctx))) (sm : SM V Ctx),
       (runLoop sm script).sm.timeout ≤ sm.timeout) ∧
    (∀ (sm : SM V Ctx) (script : List (Nat × Except SmError (Provide V Ctx))),
       sm.running = true → sm.timeout ≤ 0 → sm.i ≠ sm.states.length →
       runLoop sm script = .timedOut sm) := by
  refine ⟨runCycle_timeout, runLoop_timeout_mono, ?_⟩
  intro sm script hr ht hi
  have hcond : ¬ ((sm.running && decide (0 < sm.timeout)) = true) := by
    rw [hr]; simp; omega
  have hafter : afterLoop sm = .timedOut sm := by
    unfold afterLoop
    rw [if_neg (by rw [hr]; simp), if_pos hi]
  cases script with
  | nil => rw [runLoop, if_neg hcond, hafter]
  | cons hd tl =>
      obtain ⟨delta, res⟩ := hd
      rw [runLoop, if_neg hcond, hafter]

/-- Machine used to instantiate `budget_monotone_and_timeout`: running with
an exhausted budget short of the terminal index. -/
def w2sm : SM Nat Nat :=
  { userContext := 0, timeout := 0, timers := [], i := 0, stateCounter := 1
    nameMap := [("A", 0)], reachedStates := ["A"]
    running := true, states := [⟨"A", none⟩]
    timeOnState := 3, dependencies := [] }

/-- Witness for the amended claim C2 at a concrete machine. -/
theorem budget_monotone_and_timeout_witness :
    runLoop w2sm [] = .timedOut w2sm :=
  (budget_monotone_and_timeout Nat Nat).2.2 w2sm [] rfl (by decide) (by decide)

/-- Claim C4: writing the same dependency id twice within one `Provide`
chain raises `CriticalError`, and since the thrown error aborts the state
function, the driver's cycle ends fatally with the shared dependency map
untouched — neither write is committed. -/
theorem duplicate_dependency_write_fatal {V Ctx : Type} (p p1 : Provide V Ctx)
    (dep dep2 : ValueDependency V) (n : String) (v1 v2 : V)
    (hn : dep.name? = some n) (hok : Provide.dependency p dep v1 = .ok p1)
    (hn2 : dep2.name? = some n) :
    Provide.dependency p1 dep2 v2 =
      .error (.critical "Cannot provide dependency with this id again.") ∧
    ∀ (sm : SM V Ctx) (delta : Nat) (msg : String),
      runCycle sm delta (.error (.critical msg)) = .fatal (.critical msg) sm ∧
      (runCycle sm delta (.error (.critical msg))).sm.dependencies = sm.dependencies := by
  constructor
  · unfold Provide.dependency at hok ⊢
    simp only [hn] at hok
    simp only [hn2]
    by_cases hh : p.has n = true
    · rw [if_pos hh] at hok
      exact absurd hok (by simp)
    · rw [if_neg hh] at hok
      rw [Except.ok.injEq] at hok
      have hhas : p1.has n = true := by
        rw [← hok]
        show (lookupA (setA p.updateMap n (dep.set v1 p.providerIndex)) n).isSome = true
        rw [lookupA_setA_self]
        rfl
      rw [if_pos hhas]
  · intro sm delta msg
    exact ⟨rfl, rfl⟩

/-- Dependency used to instantiate `duplicate_dependency_write_fatal`. -/
def w4dep : ValueDependency Nat := ⟨none, some "d", none⟩

/-- The builder state after the first `dependency(d, 1)` write. -/
def w4p1 : Provide Nat Nat :=
  { repeatFlag := false, nextFlag := false, prevFlag := false, nextStateName := ""
    updateMap := [("d", ⟨some 1, some "d", some 0⟩)], createTimers := []
    clearTimers := [], newContext := 0, providerIndex := 0 }

/-- Witness for claim C4 at a concrete builder: providing `d` twice. -/
theorem duplicate_dependency_write_fatal_witness :
    Provide.dependency w4p1 w4dep 2 =
      .error (.critical "Cannot provide dependency with this id again.") :=
  (duplicate_dependency_write_fatal (mkProvide 0 0 : Provide Nat Nat) w4p1
    w4dep w4dep "d" 1 2 rfl rfl rfl).1

/-- Machine exhibiting the C3 counterexample: current state "A" (index 0)
with accumulated counters. -/
def c3sm : SM Nat Nat :=
  { userContext := 0, timeout := 100, timers := [], i := 0, stateCounter := 3
    nameMap := [("A", 0), ("B", 1)], reachedStates := ["A"]
    running := true, states := [⟨"A", none⟩, ⟨"B", none⟩]
    timeOnState := 7, dependencies := [] }

/-- A committed `Provide` whose decision is `transition("A")` — the current
state's own name. -/
def c3p : Provide Nat Nat :=
  { repeatFlag := false, nextFlag := false, prevFlag := false, nextStateName := "A"
    updateMap := [], createTimers := [], clearTimers := [], newContext := 0
    providerIndex := 0 }

/-- Claim C3 counterexample: a committed `transition(name)` whose
destination is the current state commits normally but — because
`changeIndex` returns early when the target equals the current index —
resets neither elapsed-on-state (7 + 1 = 8, not 0) nor the iteration
counter (4, not 0), and invokes no transition listener.  This falsifies
"for every committed Provide whose decision is next(), previous(), or
transition(name), the driver resets elapsed-on-state and the iteration
counter to zero ... before any transition listener is invoked" at this
concrete input. -/
theorem self_transition_no_reset :
    runCycle c3sm 1 (.ok c3p) = .goOn (applyProvide c3sm 1 c3p) none ∧
    (runCycle c3sm 1 (.ok c3p)).sm.timeOnState ≠ 0 ∧
    (runCycle c3sm 1 (.ok c3p)).sm.stateCounter ≠ 0 ∧
    (runCycle c3sm 1 (.ok c3p)).notif = none := by decide

/-- Claim C3, amended: a committed `next()` or `previous()` (from a
positive index), and a committed `transition(name)` whose destination index
differs from the current one, reset elapsed-on-state and the iteration
counter to zero and add the destination's name to the reached-state set
(which only ever grows) before any transition listener is invoked — the
snapshot handed to the listeners is the already-updated machine; a
`transition` to the current state itself is a no-op: no reset, no
reached-set addition, and no listener invocation. -/
theorem transition_resets_before_listeners {V Ctx : Type} (sm : SM V Ctx)
    (delta : Nat) (p : Provide V Ctx) :
    (p.repeatFlag = false → p.nextFlag = true →
      ∃ sm', runCycle sm delta (.ok p) = .goOn sm' (some sm') ∧
        sm'.i = sm.i + 1 ∧ sm'.timeOnState = 0 ∧ sm'.stateCounter = 0 ∧
        stateNameAt sm (sm.i + 1) ∈ sm'.reachedStates ∧
        sm.reachedStates ⊆ sm'.reachedStates) ∧
    (p.repeatFlag = false → p.nextFlag = false → p.prevFlag = true → 0 < sm.i →
      ∃ sm', runCycle sm delta (.ok p) = .goOn sm' (some sm') ∧
        sm'.i = sm.i - 1 ∧ sm'.timeOnState = 0 ∧ sm'.stateCounter = 0 ∧
        stateNameAt sm (sm.i - 1) ∈ sm'.reachedStates ∧
        sm.reachedStates ⊆ sm'.reachedStates) ∧
    (∀ idx, p.repeatFlag = false → p.nextFlag = false → p.prevFlag = false →
      p.nextStateName ≠ "" → lookupA sm.nameMap p.nextStateName = some idx →
      idx ≠ sm.i →
      ∃ sm', runCycle sm delta (.ok p) = .goOn sm' (some sm') ∧
        sm'.i = idx ∧ sm'.timeOnState = 0 ∧ sm'.stateCounter = 0 ∧
        stateNameAt sm idx ∈ sm'.reachedStates ∧
        sm.reachedStates ⊆ sm'.reachedStates) ∧
    (p.repeatFlag = false → p.nextFlag = false → p.prevFlag = false →
      p.nextStateName ≠ "" → lookupA sm.nameMap p.nextStateName = some sm.i →
      runCycle sm delta (.ok p) = .goOn (applyProvide sm delta p) none) := by
  have hA : (applyProvide sm delta p).i = sm.i := rfl
  refine ⟨?_, ?_, ?_, ?_⟩
  · intro h1 h2
    simp only [runCycle, commitDecision]
    rw [if_neg (by rw [h1]; exact Bool.false_ne_true), if_pos h2]
    rw [hA]
    rw [show ((sm.i : Int) + 1) = ((sm.i + 1 : Nat) : Int) from by omega]
    rw [jumpTo_move (applyProvide sm delta p) (sm.i + 1) (Nat.succ_ne_self sm.i)]
    exact ⟨_, rfl, rfl, rfl, rfl, mem_addSet _ _, subset_addSet _ _⟩
  · intro h1 h2 h3 h4
    simp only [runCycle, commitDecision]
    rw [if_neg (by rw [h1]; exact Bool.false_ne_true)]
    rw [if_neg (by rw [h2]; exact Bool.false_ne_true)]
    rw [if_pos h3]
    rw [hA]
    rw [show ((sm.i : Int) - 1) = ((sm.i - 1 : Nat) : Int) from by omega]
    rw [jumpTo_move (applyProvide sm delta p) (sm.i - 1) (show sm.i - 1 ≠ sm.i by omega)]
    exact ⟨_, rfl, rfl, rfl, rfl, mem_addSet _ _, subset_addSet _ _⟩
  · intro idx h1 h2 h3 h4 h5 h6
    simp only [runCycle, commitDecision]
    rw [if_neg (by rw [h1]; exact Bool.false_ne_true)]
    rw [if_neg (by rw [h2]; exact Bool.false_ne_true)]
    rw [if_neg (by rw [h3]; exact Bool.false_ne_true)]
    rw [if_pos h4]
    rw [show lookupA (applyProvide sm delta p).nameMap p.nextStateName = some idx from h5]
    show ∃ sm', jumpTo (applyProvide sm delta p) (idx : Int) = .goOn sm' (some sm') ∧ _
    rw [jumpTo_move (applyProvide sm delta p) idx h6]
    exact ⟨_, rfl, rfl, rfl, rfl, mem_addSet _ _, subset_addSet _ _⟩
  · intro h1 h2 h3 h4 h5
    simp only [runCycle, commitDecision]
    rw [if_neg (by rw [h1]; exact Bool.false_ne_true)]
    rw [if_neg (by rw [h2]; exact Bool.false_ne_true)]
    rw [if_neg (by rw [h3]; exact Bool.false_ne_true)]
    rw [if_pos h4]
    rw [show lookupA (applyProvide sm delta p).nameMap p.nextStateName = some sm.i from h5]
    show jumpTo (applyProvide sm delta p) ((sm.i : Int)) = .goOn (applyProvide sm delta p) none
    exact jumpTo_self (applyProvide sm delta p)

/-- Machine used to instantiate the amended claim C3. -/
def w3sm : SM Nat Nat :=
  { userContext := 0, timeout := 90, timers := [], i := 0, stateCounter := 2
    nameMap := [("A", 0), ("B", 1)], reachedStates := ["A"]
    running := true, states := [⟨"A", none⟩, ⟨"B", none⟩]
    timeOnState := 5, dependencies := [] }

/-- A committed `Provide` whose decision is `next()`. -/
def w3p : Provide Nat Nat :=
  { repeatFlag := false, nextFlag := true, prevFlag := false, nextStateName := ""
    updateMap := [], createTimers := [], clearTimers := [], newContext := 0
    providerIndex := 0 }

/-- Witness for the amended claim C3 at a concrete machine. -/
theorem transition_resets_before_listeners_witness :
    ∃ sm', runCycle w3sm 2 (.ok w3p) = .goOn sm' (some sm') ∧
      sm'.i = w3sm.i + 1 ∧ sm'.timeOnState = 0 ∧ sm'.stateCounter = 0 ∧
      stateNameAt w3sm (w3sm.i + 1) ∈ sm'.reachedStates ∧
      w3sm.reachedStates ⊆ sm'.reachedStates :=
  (transition_resets_before_listeners w3sm 2 w3p).1 rfl rfl

/-- Claim C7 (the `Timer` class is modelled from the spec; `createTimer`
and `hasElapsedTimer` are from the source): a timer created with timeout
`T` while the remaining budget is `B` has the fixed deadline
`max(0, B − T)`, and `hasElapsedTimer` answers `true` exactly when the
current remaining budget is ≤ that deadline; in particular the timer is
elapsed once the budget has dropped to ≤ `B − T`. -/
theorem timer_deadline_semantics {V Ctx : Type} (sm : SM V Ctx) (n : String) (T : Int) :
    lookupA (sm.createTimer n T).timers n = some ⟨max 0 (sm.timeout - T)⟩ ∧
    (∀ sm2 : SM V Ctx, lookupA sm2.timers n = some (Timer.create sm.timeout T) →
       sm2.hasElapsedTimer n = .ok (decide (sm2.timeout ≤ max 0 (sm.timeout - T))) ∧
       (sm2.timeout ≤ sm.timeout - T → sm2.hasElapsedTimer n = .ok true)) := by
  constructor
  · show lookupA (setA sm.timers n (Timer.create sm.timeout T)) n = _
    rw [lookupA_setA_self]
    rfl
  · intro sm2 h
    unfold SM.hasElapsedTimer
    rw [h]
    constructor
    · rfl
    · intro hle
      have hmax : sm2.timeout ≤ max 0 (sm.timeout - T) :=
        le_trans hle (le_max_right _ _)
      show Except.ok ((Timer.create sm.timeout T).elapsed sm2.timeout) = Except.ok true
      rw [show (Timer.create sm.timeout T).elapsed sm2.timeout = true from
            decide_eq_true hmax]

/-- Timer-creation machine for the C7 witness: budget 100 at creation. -/
def w7base : SM Nat Nat :=
  { userContext := 0, timeout := 100, timers := [], i := 0, stateCounter := 0
    nameMap := [], reachedStates := [], running := true, states := []
    timeOnState := 0, dependencies := [] }

/-- Machine later in the run for the C7 witness: budget has dropped to 60,
below the deadline 70 of the timer created at budget 100 with timeout 30. -/
def w7sm : SM Nat Nat :=
  { userContext := 0, timeout := 60, timers := [("t", Timer.create 100 30)], i := 0
    stateCounter := 0, nameMap := [], reachedStates := [], running := true
    states := [], timeOnState := 0, dependencies := [] }

/-- Witness for claim C7 at a concrete machine. -/
theorem timer_deadline_semantics_witness :
    SM.hasElapsedTimer w7sm "t" = .ok true :=
  ((timer_deadline_semantics w7base "t" 30).2 w7sm rfl).2 (by decide)

/-- Claim C8: `waitUntilReached(name, timeout)` never raises — its result
is always a normal return — and it returns at the first poll at which the
named state is in the reached set or the timeout has elapsed, continuing
to poll at every earlier snapshot. -/
theorem waitUntilReached_returns_normally (name : String) (endT : Int)
    (polls : List (List String × Int)) :
    ∃ k, waitUntilReached name endT polls = .ok k ∧
      (∀ h : k < polls.length,
         name ∈ (polls.get ⟨k, h⟩).1 ∨ endT ≤ (polls.get ⟨k, h⟩).2) ∧
      (∀ j (hj : j < polls.length), j < k →
         name ∉ (polls.get ⟨j, hj⟩).1 ∧ (polls.get ⟨j, hj⟩).2 < endT) := by
  induction polls with
  | nil =>
      refine ⟨0, rfl, ?_, ?_⟩
      · intro h
        exact absurd h (Nat.not_lt_zero 0)
      · intro j hj
        exact absurd hj (Nat.not_lt_zero j)
  | cons hd rest ih =>
      obtain ⟨r, t⟩ := hd
      obtain ⟨k, hk, hexit, hbefore⟩ := ih
      by_cases hcond : name ∉ r ∧ t < endT
      · refine ⟨k + 1, ?_, ?_, ?_⟩
        · simp only [waitUntilReached]
          rw [if_pos hcond, hk]
          rfl
        · intro h
          exact hexit (Nat.lt_of_succ_lt_succ h)
        · intro j hj hlt
          cases j with
          | zero => exact ⟨hcond.1, hcond.2⟩
          | succ j' =>
              exact hbefore j' (Nat.lt_of_succ_lt_succ hj) (Nat.lt_of_succ_lt_succ hlt)
      · refine ⟨0, ?_, ?_, ?_⟩
        · simp only [waitUntilReached]
          rw [if_neg hcond]
        · intro h
          rcases not_and_or.mp hcond with h1 | h2
          · exact Or.inl (not_not.mp h1)
          · exact Or.inr (not_lt.mp h2)
        · intro j hj hlt
          exact absurd hlt (Nat.not_lt_zero j)

/-- Machine exhibiting the C10 counterexample: one state "s0", not yet
running, positive budget, nothing reached yet. -/
def c10sm : SM Nat Nat :=
  { userContext := 0, timeout := 100, timers := [], i := 0, stateCounter := 0
    nameMap := [("s0", 0)], reachedStates := [], running := false
    states := [⟨"s0", none⟩], timeOnState := 0, dependencies := [] }

/-- Claim C10 counterexample: in `start()`'s synchronous segment, the entry
state's function begins executing (inside `this._promise =
this.helperStart()`, which runs to its first suspension point) BEFORE
`start()` adds the entry state's name to the reached set — the first
observable event is the state-function start, not the reached-set
addition.  This falsifies "start() adds the entry state's name ... before
any state function executes" at this concrete input. -/
theorem start_runs_state_fn_before_reached_add :
    startSyncTrace c10sm = [.stateFnStarts 0, .reachedAdd "s0"] ∧
    (startSyncTrace c10sm).head? ≠ some (.reachedAdd "s0") := by decide

/-- Claim C10, amended: `start()` adds the entry (current) state's name to
the reached-state set during its synchronous segment — as the segment's
last observable event, i.e. before `start()` returns and before any
transition can commit (though after the first state function has begun
executing) — so a caller of `waitUntilReached` with the entry state's name
whose polls observe the post-`start()` reached set returns at its very
first poll, without waiting for any transition. -/
theorem start_adds_entry_name_in_sync_segment {V Ctx : Type} (sm : SM V Ctx) :
    (startSyncTrace sm).getLast? = some (.reachedAdd (currentStateName sm)) ∧
    currentStateName sm ∈ (startSync sm).reachedStates ∧
    ∀ (rest : List (List String × Int)) (endT t : Int),
      waitUntilReached (currentStateName sm) endT
        (((startSync sm).reachedStates, t) :: rest) = .ok 0 := by
  refine ⟨?_, mem_addSet _ _, ?_⟩
  · unfold startSyncTrace
    exact List.getLast?_concat _
  · intro rest endT t
    simp only [waitUntilReached]
    rw [if_neg (fun hc => hc.1 (mem_addSet _ _))]

end SSM
